import Mathlib

/-!
Verification of the chat / file-management frontend
(src/frontend/src/components/ChatInterface.jsx, FileManagement.jsx,
src/frontend/src/services/api.js) against its specification.

The React components are embedded shallowly: each event handler becomes a
pure function from the component's local state plus the settled results of
the network calls it awaits, to the new state together with a trace of the
effects it performs (state updates, API calls issued, timers scheduled).
-/

/-! ## Data model (spec section 3, ChatInterface.jsx) -/

/-- Message sender: `'user'` or `'bot'` in the source. -/
inductive Sender where
  | user
  | bot
  deriving DecidableEq

/-- A chat message as built in `ChatInterface.handleSendMessage`:
`{ text, sender, timestamp }`, with `isError: true` added on the error path.
Absence of the `isError` field in JS is modelled as `isError = false`. -/
structure Message where
  text : String
  sender : Sender
  timestamp : String
  isError : Bool := false
  deriving DecidableEq

/-- Local state of `ChatInterface`: the `messages` array and the
`isLoading` flag (the spec's `pending`). -/
structure ChatState where
  messages : List Message
  isLoading : Bool
  deriving DecidableEq

/-- The fixed fallback text appended on a failed chat call
(ChatInterface.jsx line 41). -/
def chatErrorText : String := "Sorry, I encountered an error. Please try again."

/-! ## API client (src/frontend/src/services/api.js) -/

/-- The error thrown by the api.js wrappers on a non-ok response:
`new Error(\x7bHTTP error! status: ...\x7d)`, carrying the HTTP status. -/
structure NetworkError where
  status : Nat
  deriving DecidableEq

/-- An HTTP response as seen by `fetch`: a status code and a parsed JSON
body of some type. -/
structure HttpResponse (α : Type) where
  status : Nat
  body : α

/-- `Response.ok` of the Fetch API: status in the inclusive range 200-299. -/
def respOk (status : Nat) : Bool := 200 ≤ status && status ≤ 299

/-- `chatAPI.sendMessage` (api.js lines 4-18): throws on `!response.ok`
(the catch block logs and rethrows the same error), returns the parsed
body otherwise. -/
def chatAPI.sendMessage {α : Type} (r : HttpResponse α) : Except NetworkError α :=
  if respOk r.status then .ok r.body else .error { status := r.status }

/-- `fileAPI.uploadFile` (api.js lines 22-29): throws on `!response.ok`. -/
def fileAPI.uploadFile {α : Type} (r : HttpResponse α) : Except NetworkError α :=
  if respOk r.status then .ok r.body else .error { status := r.status }

/-- `fileAPI.deleteFile` (api.js lines 31-37): throws on `!response.ok`. -/
def fileAPI.deleteFile {α : Type} (filename : String) (r : HttpResponse α) :
    Except NetworkError α :=
  if respOk r.status then .ok r.body else .error { status := r.status }

/-- `fileAPI.listFiles` (api.js lines 39-43): throws on `!response.ok`. -/
def fileAPI.listFiles {α : Type} (r : HttpResponse α) : Except NetworkError α :=
  if respOk r.status then .ok r.body else .error { status := r.status }

/-- `ragAPI.getStatus` (api.js lines 47-50): never inspects `response.ok`;
returns the parsed body for any status. -/
def ragAPI.getStatus {α : Type} (r : HttpResponse α) : Except NetworkError α :=
  .ok r.body

/-- `ragAPI.reinitialize` (api.js lines 52-57): never inspects
`response.ok`; returns the parsed body for any status. -/
def ragAPI.reinitializeRag {α : Type} (r : HttpResponse α) : Except NetworkError α :=
  .ok r.body

/-! ## Chat session (ChatInterface.jsx and the embedded InputBox) -/

/-- One observable step of a chat turn: a React state update (both
`setMessages`/`setIsLoading` writes that happen back-to-back are folded
into one state snapshot), or the issuing of the network call. -/
inductive ChatStep where
  | stateStep (s : ChatState)
  | callStep (message : String)
  deriving DecidableEq

/-- `ChatInterface.handleSendMessage` (lines 19-50), as the ordered trace
of steps it performs, given the settled result of `chatAPI.sendMessage`:
append the user message and set `isLoading` synchronously, issue the call,
then append the bot reply (or the fixed error message) and clear
`isLoading`. The function is total: a failed call is converted into an
appended error message, never re-raised. -/
def handleSendMessage (s : ChatState) (message : String)
    (apiResult : Except NetworkError String) (ts1 ts2 : String) : List ChatStep :=
  let userMessage : Message := { text := message, sender := .user, timestamp := ts1 }
  let updatedMessages := s.messages ++ [userMessage]
  let finalMessages :=
    match apiResult with
    | .ok reply => updatedMessages ++ [{ text := reply, sender := .bot, timestamp := ts2 }]
    | .error _ =>
        updatedMessages ++
          [{ text := chatErrorText, sender := .bot, timestamp := ts2, isError := true }]
  [ .stateStep { messages := updatedMessages, isLoading := true },
    .callStep message,
    .stateStep { messages := finalMessages, isLoading := false } ]

/-- A character JS `String.prototype.trim` removes (the common white
space characters; exotic Unicode space code points are omitted as they do
not occur in the claims). -/
def isJsWhitespace (c : Char) : Bool :=
  c = ' ' || c = '\t' || c = '\n' || c = '\r' || c = '\x0b' || c = '\x0c'

/-- JS `input.trim()`: drop whitespace from both ends of the string. -/
def jsTrim (s : String) : String :=
  ⟨((s.data.dropWhile isJsWhitespace).reverse.dropWhile isJsWhitespace).reverse⟩

/-- The guard of `InputBox.handleSubmit` (line 71):
`input.trim() && !isLoading` (a string is truthy iff non-empty). -/
def submitAccepted (s : ChatState) (input : String) : Bool :=
  !(jsTrim input == "") && !s.isLoading

/-- `InputBox.handleSubmit` (lines 69-75): if the guard passes, invoke
`onSendMessage(input.trim())`; otherwise do nothing (empty trace: no state
update and no network call). -/
def handleSubmit (s : ChatState) (input : String)
    (apiResult : Except NetworkError String) (ts1 ts2 : String) : List ChatStep :=
  if submitAccepted s input then handleSendMessage s (jsTrim input) apiResult ts1 ts2
  else []

/-- One user submission over the life of a session: the raw input text,
the result the chat call would settle with, and the two timestamps. -/
structure Submission where
  input : String
  apiResult : Except NetworkError String
  ts1 : String
  ts2 : String

/-- The state snapshots of a step trace, in order. -/
def stepStates : List ChatStep → List ChatState
  | [] => []
  | .stateStep s :: rest => s :: stepStates rest
  | .callStep _ :: rest => stepStates rest

/-- Run a whole session: each submission goes through
`InputBox.handleSubmit`; the state snapshots are concatenated and each
turn starts in the last state of the previous one. -/
def runSession (s : ChatState) : List Submission → List ChatState
  | [] => []
  | sub :: rest =>
      let states := stepStates (handleSubmit s sub.input sub.apiResult sub.ts1 sub.ts2)
      states ++ runSession (states.getLast?.getD s) rest

/-- All states a session passes through, starting from the initial one. -/
def sessionStates (init : ChatState) (subs : List Submission) : List ChatState :=
  init :: runSession init subs

/-- The transcript of `b` extends the transcript of `a` at the end
(possibly by nothing). -/
def LogExtends (a b : ChatState) : Prop := ∃ t, a.messages ++ t = b.messages

/-! ## File repository view (FileManagement.jsx) -/

/-- Optional metadata of a listed file (FileManagement.jsx lines 128-132). -/
structure FileMeta where
  size : Nat
  file_type : String
  deriving DecidableEq

/-- A file record returned by `GET /files`. -/
structure FileRecord where
  filename : String
  metadata : Option FileMeta := none
  deriving DecidableEq

/-- The RAG status returned by `GET /rag/status`. The initial local value
`{}` (an empty JS object) renders as falsy `rag_initialized` and
`file_count || 0`, i.e. the defaults below. -/
structure RagStatus where
  rag_initialized : Bool := false
  file_count : Nat := 0
  deriving DecidableEq

/-- Local state of `FileManagement`: `files`, `uploading`, `ragStatus`. -/
structure FMState where
  files : List FileRecord
  uploading : Bool
  ragStatus : RagStatus
  deriving DecidableEq

/-- The initial state set by the `useState` calls (lines 5-7). -/
def initialFMState : FMState := { files := [], uploading := false, ragStatus := {} }

/-- The API calls `FileManagement` can issue, in the order issued. -/
inductive APICall where
  | uploadCall
  | deleteCall (filename : String)
  | listFilesCall
  | ragStatusCall
  | reinitializeCall
  deriving DecidableEq

/-- `loadFiles` (lines 14-21): replace `files` wholesale on success; on
failure the error is caught and logged, state untouched. -/
def loadFiles (s : FMState) (res : Except NetworkError (List FileRecord)) : FMState :=
  match res with
  | .ok files => { s with files := files }
  | .error _ => s

/-- `loadRAGStatus` (lines 23-30): replace `ragStatus` wholesale on
success; on failure the error is caught and logged, state untouched. -/
def loadRAGStatus (s : FMState) (res : Except NetworkError RagStatus) : FMState :=
  match res with
  | .ok status => { s with ragStatus := status }
  | .error _ => s

/-- The calls issued by the mount effect (lines 9-12): both fetches are
started, neither awaited before the other. -/
def mountCalls : List APICall := [.listFilesCall, .ragStatusCall]

/-- The state after the mount effect when the `loadFiles` fetch settles
first. -/
def mountState (listRes : Except NetworkError (List FileRecord))
    (statusRes : Except NetworkError RagStatus) : FMState :=
  loadRAGStatus (loadFiles initialFMState listRes) statusRes

/-- The state after the mount effect when the `loadRAGStatus` fetch
settles first. -/
def mountStateStatusFirst (listRes : Except NetworkError (List FileRecord))
    (statusRes : Except NetworkError RagStatus) : FMState :=
  loadFiles (loadRAGStatus initialFMState statusRes) listRes

/-- The body of the `status = "ok" | "duplicate"` upload response; only
the `status` field is inspected by the component. -/
structure UploadResult where
  status : String
  deriving DecidableEq

/-- Everything observable about one run of `handleFileUpload`: the final
state, the API calls issued in order, whether the file input was reset
(`event.target.value = ''`), and every value successively assigned to the
`uploading` flag. -/
structure UploadOutcome where
  state : FMState
  calls : List APICall
  inputReset : Bool
  uploadingTrace : List Bool
  deriving DecidableEq

/-- `handleFileUpload` (lines 32-57). `selected` is
`event.target.files[0]` (`none` when no file is selected, in which case
the handler returns before doing anything). Otherwise: set `uploading`,
issue the upload; on a `duplicate` result only alert; on any other
success run `loadFiles` then `loadRAGStatus`; on failure only alert. The
`finally` block clears `uploading` and resets the input on every path
that entered the `try`. -/
def handleFileUpload (s : FMState) (selected : Option String)
    (uploadRes : Except NetworkError UploadResult)
    (listRes : Except NetworkError (List FileRecord))
    (statusRes : Except NetworkError RagStatus) : UploadOutcome :=
  match selected with
  | none => { state := s, calls := [], inputReset := false, uploadingTrace := [] }
  | some _ =>
      let s1 : FMState := { s with uploading := true }
      match uploadRes with
      | .error _ =>
          { state := { s1 with uploading := false },
            calls := [.uploadCall], inputReset := true, uploadingTrace := [true, false] }
      | .ok result =>
          if result.status == "duplicate" then
            { state := { s1 with uploading := false },
              calls := [.uploadCall], inputReset := true, uploadingTrace := [true, false] }
          else
            let s3 := loadRAGStatus (loadFiles s1 listRes) statusRes
            { state := { s3 with uploading := false },
              calls := [.uploadCall, .listFilesCall, .ragStatusCall],
              inputReset := true, uploadingTrace := [true, false] }

/-- Observable outcome of one run of `handleDeleteFile`. -/
structure DeleteOutcome where
  state : FMState
  calls : List APICall
  deriving DecidableEq

/-- `handleDeleteFile` (lines 59-71). `confirmed` is the result of
`window.confirm`; without it nothing happens. With it, the delete call is
issued; on success `loadFiles` then `loadRAGStatus` run; on failure the
catch only logs and alerts. -/
def handleDeleteFile (s : FMState) (filename : String) (confirmed : Bool)
    (deleteRes : Except NetworkError Unit)
    (listRes : Except NetworkError (List FileRecord))
    (statusRes : Except NetworkError RagStatus) : DeleteOutcome :=
  if confirmed then
    match deleteRes with
    | .error _ => { state := s, calls := [.deleteCall filename] }
    | .ok _ =>
        { state := loadRAGStatus (loadFiles s listRes) statusRes,
          calls := [.deleteCall filename, .listFilesCall, .ragStatusCall] }
  else { state := s, calls := [] }

/-- Observable outcome of one run of `handleReinitializeRAG`: the calls
issued and the delays (ms) of the `loadRAGStatus` refreshes it schedules
via `setTimeout`. -/
structure ReinitOutcome where
  calls : List APICall
  scheduledRefreshDelays : List Nat
  deriving DecidableEq

/-- `handleReinitializeRAG` (lines 73-81): issue the reinitialize call;
if it fulfills, `setTimeout(loadRAGStatus, 3000)` schedules exactly one
refresh; if it rejects, the catch logs and schedules nothing. -/
def handleReinitializeRAG (res : Except NetworkError Unit) : ReinitOutcome :=
  match res with
  | .ok _ => { calls := [.reinitializeCall], scheduledRefreshDelays := [3000] }
  | .error _ => { calls := [.reinitializeCall], scheduledRefreshDelays := [] }

/-! ## Claims -/

/-- C1: a submission made while the session is AwaitingReply (`isLoading`
true) or whose text is empty or whitespace-only is a no-op: the step trace
is empty, so no Message is appended and no network call is issued. -/
theorem C1_rejected_submission_is_noop (s : ChatState) (input : String)
    (apiResult : Except NetworkError String) (ts1 ts2 : String)
    (h : s.isLoading = true ∨ jsTrim input = "") :
    handleSubmit s input apiResult ts1 ts2 = [] := by
  rcases h with h | h <;> simp [handleSubmit, submitAccepted, h]

/-- Witness for C1 at a concrete input: pending session, non-empty text. -/
theorem C1_witness :
    handleSubmit { messages := [], isLoading := true } "hello" (.ok "hi") "t1" "t2" = [] :=
  C1_rejected_submission_is_noop _ _ _ _ _ (Or.inl rfl)

/-- C2: an accepted submission whose chat call succeeds produces exactly
this trace: the user message is appended (with `isLoading` set) before the
network call is issued, the bot message carrying the reply is appended
after it settles with `isLoading` cleared; the transcript of the final
state is the initial one plus exactly 2 messages. -/
theorem C2_successful_turn (s : ChatState) (input reply ts1 ts2 : String)
    (hacc : submitAccepted s input = true) :
    handleSubmit s input (.ok reply) ts1 ts2 =
      [ .stateStep
          { messages := s.messages ++ [{ text := jsTrim input, sender := .user, timestamp := ts1 }],
            isLoading := true },
        .callStep (jsTrim input),
        .stateStep
          { messages := s.messages ++ [{ text := jsTrim input, sender := .user, timestamp := ts1 },
              { text := reply, sender := .bot, timestamp := ts2 }],
            isLoading := false } ] ∧
    (stepStates (handleSubmit s input (.ok reply) ts1 ts2)).getLast?.map
        (fun st => st.messages.length) = some (s.messages.length + 2) := by
  constructor
  · simp [handleSubmit, hacc, handleSendMessage]
  · simp [handleSubmit, hacc, handleSendMessage, stepStates]

/-- Witness for C2 at a concrete input. -/
theorem C2_witness :
    handleSubmit { messages := [], isLoading := false } "Hello" (.ok "Hi there") "t1" "t2" =
      [ .stateStep
          { messages := [{ text := "Hello", sender := .user, timestamp := "t1" }],
            isLoading := true },
        .callStep "Hello",
        .stateStep
          { messages := [{ text := "Hello", sender := .user, timestamp := "t1" },
              { text := "Hi there", sender := .bot, timestamp := "t2" }],
            isLoading := false } ] := by
  have h := C2_successful_turn { messages := [], isLoading := false } "Hello" "Hi there"
    "t1" "t2" (by decide)
  exact h.1.trans (by decide)

/-- C3: an accepted submission whose chat call fails still appends the
user message before the call and then exactly one bot message with the
fixed fallback text and `isError = true`; `isLoading` ends false. The
handler's trace is total — the failure is absorbed, never re-raised. -/
theorem C3_failed_turn (s : ChatState) (input ts1 ts2 : String) (e : NetworkError)
    (hacc : submitAccepted s input = true) :
    handleSubmit s input (.error e) ts1 ts2 =
      [ .stateStep
          { messages := s.messages ++ [{ text := jsTrim input, sender := .user, timestamp := ts1 }],
            isLoading := true },
        .callStep (jsTrim input),
        .stateStep
          { messages := s.messages ++ [{ text := jsTrim input, sender := .user, timestamp := ts1 },
              { text := chatErrorText, sender := .bot, timestamp := ts2, isError := true }],
            isLoading := false } ] ∧
    (stepStates (handleSubmit s input (.error e) ts1 ts2)).getLast?.map
        (fun st => st.messages.length) = some (s.messages.length + 2) := by
  constructor
  · simp [handleSubmit, hacc, handleSendMessage]
  · simp [handleSubmit, hacc, handleSendMessage, stepStates]

/-- Witness for C3 at a concrete input. -/
theorem C3_witness :
    handleSubmit { messages := [], isLoading := false } "Hello" (.error { status := 500 })
        "t1" "t2" =
      [ .stateStep
          { messages := [{ text := "Hello", sender := .user, timestamp := "t1" }],
            isLoading := true },
        .callStep "Hello",
        .stateStep
          { messages := [{ text := "Hello", sender := .user, timestamp := "t1" },
              { text := chatErrorText, sender := .bot, timestamp := "t2", isError := true }],
            isLoading := false } ] := by
  have h := C3_failed_turn { messages := [], isLoading := false } "Hello" "t1" "t2"
    { status := 500 } (by decide)
  exact h.1.trans (by decide)

/-- C4: with a file selected, every upload attempt ends with `uploading`
false and the file input reset; a `status = "ok"` result issues the
listing re-fetch and the RAG-status re-fetch exactly once each; a
`duplicate` result or a failed call issues neither and leaves the file
listing and RAG status unchanged. -/
theorem C4_upload_refresh_and_flag (s : FMState) (f : String)
    (uploadRes : Except NetworkError UploadResult)
    (listRes : Except NetworkError (List FileRecord))
    (statusRes : Except NetworkError RagStatus) :
    (handleFileUpload s (some f) uploadRes listRes statusRes).state.uploading = false ∧
    (handleFileUpload s (some f) uploadRes listRes statusRes).inputReset = true ∧
    (uploadRes = .ok { status := "ok" } →
      (handleFileUpload s (some f) uploadRes listRes statusRes).calls =
        [.uploadCall, .listFilesCall, .ragStatusCall] ∧
      (handleFileUpload s (some f) uploadRes listRes statusRes).calls.count .listFilesCall = 1 ∧
      (handleFileUpload s (some f) uploadRes listRes statusRes).calls.count .ragStatusCall = 1) ∧
    ((uploadRes = .ok { status := "duplicate" } ∨ ∃ e, uploadRes = .error e) →
      (handleFileUpload s (some f) uploadRes listRes statusRes).calls = [.uploadCall] ∧
      (handleFileUpload s (some f) uploadRes listRes statusRes).state.files = s.files ∧
      (handleFileUpload s (some f) uploadRes listRes statusRes).state.ragStatus = s.ragStatus) := by
  rcases uploadRes with e | r
  · simp [handleFileUpload]
  · obtain ⟨st⟩ := r
    by_cases hdup : st = "duplicate"
    · subst hdup
      simp [handleFileUpload]
    · simp only [handleFileUpload, beq_iff_eq, hdup, if_false, loadFiles, loadRAGStatus]
      rcases listRes with e1 | fs <;> rcases statusRes with e2 | rs <;>
        simp [hdup, List.count_cons]

/-- Witness for C4 at a concrete `status = "ok"` upload. -/
theorem C4_witness :
    (handleFileUpload initialFMState (some "report.pdf") (.ok { status := "ok" })
        (.ok [{ filename := "report.pdf" }])
        (.ok { rag_initialized := true, file_count := 1 })).calls =
      [.uploadCall, .listFilesCall, .ragStatusCall] :=
  ((C4_upload_refresh_and_flag initialFMState "report.pdf" (.ok { status := "ok" })
      (.ok [{ filename := "report.pdf" }])
      (.ok { rag_initialized := true, file_count := 1 })).2.2.1 rfl).1

/-- C5: without confirmation the delete handler issues no call and leaves
the state untouched; with confirmation a successful delete issues the
listing and RAG-status re-fetches exactly once each, and a failed delete
issues neither and leaves the state unchanged. -/
theorem C5_delete_confirmation_and_refresh (s : FMState) (fn : String)
    (deleteRes : Except NetworkError Unit)
    (listRes : Except NetworkError (List FileRecord))
    (statusRes : Except NetworkError RagStatus) :
    handleDeleteFile s fn false deleteRes listRes statusRes = { state := s, calls := [] } ∧
    (deleteRes = .ok () →
      (handleDeleteFile s fn true deleteRes listRes statusRes).calls =
        [.deleteCall fn, .listFilesCall, .ragStatusCall] ∧
      (handleDeleteFile s fn true deleteRes listRes statusRes).calls.count .listFilesCall = 1 ∧
      (handleDeleteFile s fn true deleteRes listRes statusRes).calls.count .ragStatusCall = 1) ∧
    (∀ e, deleteRes = .error e →
      handleDeleteFile s fn true deleteRes listRes statusRes =
        { state := s, calls := [.deleteCall fn] }) := by
  rcases deleteRes with e | u
  · simp [handleDeleteFile]
  · simp [handleDeleteFile, List.count_cons]

/-- Witness for C5: confirmed delete of `report.pdf` that succeeds. -/
theorem C5_witness :
    (handleDeleteFile initialFMState "report.pdf" true (.ok ())
        (.ok []) (.ok { rag_initialized := false, file_count := 0 })).calls =
      [.deleteCall "report.pdf", .listFilesCall, .ragStatusCall] :=
  ((C5_delete_confirmation_and_refresh initialFMState "report.pdf" (.ok ())
      (.ok []) (.ok { rag_initialized := false, file_count := 0 })).2.1 rfl).1

/-- C6: on a non-2xx HTTP status, `chatAPI.sendMessage`,
`fileAPI.uploadFile`, `fileAPI.deleteFile` and `fileAPI.listFiles` all
raise a `NetworkError`, while `ragAPI.getStatus` and the reinitialize
operation return the parsed body without raising. -/
theorem C6_api_error_policy (st : Nat) (h : respOk st = false)
    (reply : String) (ur : UploadResult) (fs : List FileRecord) (rs : RagStatus)
    (fn : String) (ack : Unit) :
    chatAPI.sendMessage { status := st, body := reply } = .error { status := st } ∧
    fileAPI.uploadFile { status := st, body := ur } = .error { status := st } ∧
    fileAPI.deleteFile fn { status := st, body := ack } = .error { status := st } ∧
    fileAPI.listFiles { status := st, body := fs } = .error { status := st } ∧
    ragAPI.getStatus { status := st, body := rs } = .ok rs ∧
    ragAPI.reinitializeRag { status := st, body := ack } = .ok ack := by
  simp [chatAPI.sendMessage, fileAPI.uploadFile, fileAPI.deleteFile, fileAPI.listFiles,
    ragAPI.getStatus, ragAPI.reinitializeRag, h]

/-- Witness for C6 at HTTP status 500. -/
theorem C6_witness :
    chatAPI.sendMessage { status := 500, body := "oops" } = .error { status := 500 } ∧
    fileAPI.uploadFile { status := 500, body := ({ status := "ok" } : UploadResult) } =
      .error { status := 500 } ∧
    fileAPI.deleteFile "report.pdf" { status := 500, body := () } = .error { status := 500 } ∧
    fileAPI.listFiles { status := 500, body := ([] : List FileRecord) } =
      .error { status := 500 } ∧
    ragAPI.getStatus { status := 500, body := ({} : RagStatus) } = .ok {} ∧
    ragAPI.reinitializeRag { status := 500, body := () } = .ok () :=
  C6_api_error_policy 500 (by decide) "oops" { status := "ok" } [] {} "report.pdf" ()

/-- C7: the mount effect issues both fetches; the resulting state does
not depend on which settles first; a failure of either fetch leaves its
own field at the default (empty list, `initialized = false` and
`fileCount = 0`) while the other fetch still updates its field. -/
theorem C7_mount_independent_fetches
    (listRes : Except NetworkError (List FileRecord))
    (statusRes : Except NetworkError RagStatus) :
    mountCalls = [.listFilesCall, .ragStatusCall] ∧
    mountState listRes statusRes = mountStateStatusFirst listRes statusRes ∧
    (∀ e, listRes = .error e → (mountState listRes statusRes).files = []) ∧
    (∀ e, statusRes = .error e →
      (mountState listRes statusRes).ragStatus = { rag_initialized := false, file_count := 0 }) ∧
    (∀ fs, listRes = .ok fs → (mountState listRes statusRes).files = fs) ∧
    (∀ rs, statusRes = .ok rs → (mountState listRes statusRes).ragStatus = rs) := by
  rcases listRes with e1 | fs <;> rcases statusRes with e2 | rs <;>
    simp [mountState, mountStateStatusFirst, mountCalls, loadFiles, loadRAGStatus,
      initialFMState]

/-- Witness for C7: the listing fetch fails, the status fetch succeeds. -/
theorem C7_witness :
    (mountState (.error { status := 500 })
        (.ok { rag_initialized := true, file_count := 2 })).files = [] ∧
    (mountState (.error { status := 500 })
        (.ok { rag_initialized := true, file_count := 2 })).ragStatus =
      { rag_initialized := true, file_count := 2 } :=
  ⟨(C7_mount_independent_fetches (.error { status := 500 })
      (.ok { rag_initialized := true, file_count := 2 })).2.2.1 _ rfl,
   (C7_mount_independent_fetches (.error { status := 500 })
      (.ok { rag_initialized := true, file_count := 2 })).2.2.2.2.2 _ rfl⟩

/-- C9 counterexample: the claim says every settled reinitialize call
schedules exactly one status refresh, but when the call settles by
rejecting (e.g. a transport failure, HTTP status 500 in the model) the
catch block schedules nothing. -/
theorem C9_counterexample :
    ¬ (handleReinitializeRAG (.error { status := 500 })).scheduledRefreshDelays.length = 1 := by
  decide

/-- C9 (amended): a fulfilled reinitialize call schedules exactly one
status refresh, after 3000 ms; a rejected call schedules none. In both
cases exactly the one reinitialize API call is issued. -/
theorem C9_reinit_refresh_schedule (res : Except NetworkError Unit) :
    (handleReinitializeRAG res).calls = [.reinitializeCall] ∧
    (handleReinitializeRAG res).scheduledRefreshDelays =
      (match res with | .ok _ => [3000] | .error _ => []) := by
  rcases res with e | u <;> simp [handleReinitializeRAG]

/-- C10: invoking the upload handler with no file selected is a complete
no-op: state unchanged (so `uploading` keeps its value and is never set),
no API call, no input reset, no assignment to the `uploading` flag. -/
theorem C10_upload_without_file_is_noop (s : FMState)
    (uploadRes : Except NetworkError UploadResult)
    (listRes : Except NetworkError (List FileRecord))
    (statusRes : Except NetworkError RagStatus) :
    handleFileUpload s none uploadRes listRes statusRes =
      { state := s, calls := [], inputReset := false, uploadingTrace := [] } := rfl


/-- The bot message appended when the chat call settles: the reply text
on success, the fixed fallback text with `isError` on failure. -/
def botReplyOf : Except NetworkError String → String → Message
  | .ok reply, ts => { text := reply, sender := .bot, timestamp := ts }
  | .error _, ts => { text := chatErrorText, sender := .bot, timestamp := ts, isError := true }

/-- The two state snapshots of an accepted chat turn: user message
appended with `isLoading` set, then the paired bot message appended with
`isLoading` cleared. -/
theorem stepStates_handleSubmit_accepted (s : ChatState) (sub : Submission)
    (hacc : submitAccepted s sub.input = true) :
    stepStates (handleSubmit s sub.input sub.apiResult sub.ts1 sub.ts2) =
      [ { messages := s.messages ++
            [{ text := jsTrim sub.input, sender := .user, timestamp := sub.ts1 }],
          isLoading := true },
        { messages := s.messages ++
            [{ text := jsTrim sub.input, sender := .user, timestamp := sub.ts1 },
             botReplyOf sub.apiResult sub.ts2],
          isLoading := false } ] := by
  rcases hres : sub.apiResult with e | reply <;>
    simp [handleSubmit, hacc, handleSendMessage, stepStates, botReplyOf, hres]

/-- C8: over any whole session from any starting state, consecutive
states of the state trace only ever extend the transcript at the end:
no message is modified, reordered or deleted, and in particular the
optimistically appended user message survives a failed call. -/
theorem C8_transcript_append_only (init : ChatState) (subs : List Submission) :
    List.Chain' LogExtends (sessionStates init subs) := by
  unfold sessionStates
  induction subs generalizing init with
  | nil => simp [runSession]
  | cons sub rest ih =>
      rw [runSession]
      by_cases hacc : submitAccepted init sub.input
      · rw [stepStates_handleSubmit_accepted init sub hacc]
        rw [List.cons_append, List.cons_append, List.nil_append, List.chain'_cons]
        constructor
        · exact ⟨_, rfl⟩
        rw [List.chain'_cons]
        constructor
        · refine ⟨[botReplyOf sub.apiResult sub.ts2], ?_⟩
          simp
        · exact ih _
      · have h0 : stepStates (handleSubmit init sub.input sub.apiResult sub.ts1 sub.ts2) = [] := by
          simp [handleSubmit, hacc, stepStates]
        rw [h0]
        simpa using ih init
